import Mathlib

/-!
# Verification of the seeded sequence generator (`src/utils/random.ts`)

The source is a ten-line JavaScript closure:

```
export const seededRandom = (seed: number) => {
  let state = seed;
  return (min: number, max: number) => {
    state = (state * 1664525 + 1013904223) % 2147483648;
    return Math.floor((state / 2147483648) * (max - min)) + min;
  };
};
```

Embedding choices:
* The closure's captured mutable `state` becomes a one-field structure
  `Generator` passed explicitly; a draw returns the new generator together
  with the drawn value.
* JavaScript `%` on numbers is the truncating remainder (the result carries
  the dividend's sign), which is `Int.tmod`.
* `Math.floor` rounds toward negative infinity, so
  `Math.floor((state / 2147483648) * (max - min))` is the floor of the exact
  rational `state * (max - min) / 2147483648`, i.e.
  `Int.fdiv (state * (max - min)) 2147483648`.  The spec (§4) sanctions
  "exact rational arithmetic with equivalent truncation behavior" as the
  reference semantics for this scaling step.  (For the ranges exercised by
  the concrete claims the IEEE-754 double computation is exact and agrees
  with this rational semantics: `state` after one update satisfies
  `|state| < 2^31`, so `state / 2^31` is an exact double, and the products
  involved stay below `2^53`.)
* For the one claim that is about the double-precision state update itself,
  `rnd53` models IEEE-754 binary64 rounding of an exact integer
  (round to nearest, 53-bit significand, ties to even), and `jsLcgStep`
  models the update as JavaScript actually computes it on doubles.
-/

/-- A generator instance: the closure returned by `seededRandom` owns one
private integer `state`; here the closure's environment is reified as a
one-field structure that each draw call replaces. -/
structure Generator where
  state : Int

/-- Line 8 of `src/utils/random.ts`:
`state = (state * 1664525 + 1013904223) % 2147483648`.
JavaScript `%` is the truncating remainder, `Int.tmod`. -/
def lcgStep (s : Int) : Int :=
  (s * 1664525 + 1013904223).tmod 2147483648

/-- Lines 8–9 of `src/utils/random.ts`: one call of the returned closure.
The state is updated first (line 8, `lcgStep`), then the value
`Math.floor((state / 2147483648) * (max - min)) + min` is computed from the
updated state (line 9), with the scaling step taken at its exact rational
value: `(s * (max - min)).fdiv 2147483648` is the floor of
`(s / 2147483648) * (max - min)`. -/
def Generator.draw (g : Generator) (min max : Int) : Generator × Int :=
  let s := lcgStep g.state
  (⟨s⟩, (s * (max - min)).fdiv 2147483648 + min)

/-- Lines 5–6 of `src/utils/random.ts`: construction initialises the private
state to the seed. -/
def seededRandom (seed : Int) : Generator := ⟨seed⟩

/-- The value sequence produced by a generator fed a list of `(min, max)`
requests in order; each draw threads the updated generator to the next. -/
def runSeq (g : Generator) : List (Int × Int) → List Int
  | [] => []
  | (mn, mx) :: rest =>
    let r := g.draw mn mx
    r.2 :: runSeq r.1 rest

/-- The generator left after feeding a list of `(min, max)` requests in
order. -/
def runGen (g : Generator) : List (Int × Int) → Generator
  | [] => g
  | (mn, mx) :: rest => runGen (g.draw mn mx).1 rest

/-- A world of two coexisting generator instances, with a draw performed on
the first instance only; models calling generator A while generator B is
alive. -/
def drawFst (w : Generator × Generator) (mn mx : Int) :
    (Generator × Generator) × Int :=
  let r := w.1.draw mn mx
  ((r.1, w.2), r.2)

/-- Definition following the spec's words (§7), for comparison with the
source: a range-checked draw that fails with `InvalidRangeError` when
`max ≤ min`.  The source defines no such error and no check; this definition
only serves to exhibit the divergence. -/
def drawCheckedSpec (g : Generator) (mn mx : Int) :
    Except String (Generator × Int) :=
  if mx ≤ mn then Except.error "InvalidRangeError"
  else Except.ok (g.draw mn mx)

/-- How many low bits an exact integer magnitude carries beyond a 53-bit
significand: the least `e` with `n / 2 ^ e < 2 ^ 53`, computed with the
first argument as recursion fuel (`fuel = n` always suffices). -/
def excessBits : Nat → Nat → Nat
  | 0, _ => 0
  | fuel + 1, n => if n < 2 ^ 53 then 0 else excessBits fuel (n / 2) + 1

/-- Rounding of an exact natural number to the nearest value representable
with a 53-bit significand (IEEE-754 binary64), ties to even. -/
def rnd53Nat (n : Nat) : Nat :=
  let e := excessBits n n
  if e = 0 then n
  else
    let g := 2 ^ e
    let q := n / g
    let r := n % g
    if r < g / 2 then q * g
    else if g / 2 < r then (q + 1) * g
    else if q % 2 = 0 then q * g else (q + 1) * g

/-- Rounding of an exact integer to the nearest IEEE-754 binary64 value;
binary64 rounding is symmetric in sign. -/
def rnd53 (n : Int) : Int :=
  if 0 ≤ n then (rnd53Nat n.toNat : Int) else -(rnd53Nat (-n).toNat : Int)

/-- Line 8 of `src/utils/random.ts` as JavaScript actually computes it on
IEEE-754 doubles when the state is an integer-valued double: the product
`state * 1664525` is rounded to 53 significant bits, the sum with
`1013904223` is rounded again, and the remainder `% 2147483648` of two
integral doubles is exact (its magnitude is below `2^31 < 2^53`, hence
representable). -/
def jsLcgStep (s : Int) : Int :=
  (rnd53 (rnd53 (s * 1664525) + 1013904223)).tmod 2147483648

/-! ## Shared lemmas about the state update and a single draw -/

theorem lcgStep_lt (s : Int) : lcgStep s < 2147483648 :=
  Int.tmod_lt_of_pos _ (by norm_num)

theorem excessBits_eq_zero (f m : Nat) (h : m < 2 ^ 53) :
    excessBits f m = 0 := by
  cases f with
  | zero => rfl
  | succ f =>
    unfold excessBits
    rw [if_pos h]

theorem rnd53Nat_eq_self {m : Nat} (h : m < 2 ^ 53) : rnd53Nat m = m := by
  simp [rnd53Nat, excessBits_eq_zero _ _ h]

theorem rnd53_eq_self {n : Int} (h : n.natAbs < 2 ^ 53) : rnd53 n = n := by
  unfold rnd53
  by_cases hn : 0 ≤ n
  · rw [if_pos hn, rnd53Nat_eq_self (by omega), Int.toNat_of_nonneg hn]
  · rw [if_neg hn, rnd53Nat_eq_self (by omega)]
    have h1 : ((-n).toNat : Int) = -n := Int.toNat_of_nonneg (by omega)
    omega

theorem runGen_eq_of_length (C1 : List (Int × Int)) :
    ∀ (g : Generator) (C2 : List (Int × Int)), C1.length = C2.length →
      runGen g C1 = runGen g C2 := by
  induction C1 with
  | nil =>
    intro g C2 hlen
    cases C2 with
    | nil => rfl
    | cons q rest2 => simp at hlen
  | cons p rest ih =>
    intro g C2 hlen
    cases C2 with
    | nil => simp at hlen
    | cons q rest2 =>
      obtain ⟨mn, mx⟩ := p
      obtain ⟨mn2, mx2⟩ := q
      have h1 : runGen g ((mn, mx) :: rest)
          = runGen ⟨lcgStep g.state⟩ rest := rfl
      have h2 : runGen g ((mn2, mx2) :: rest2)
          = runGen ⟨lcgStep g.state⟩ rest2 := rfl
      rw [h1, h2]
      exact ih _ rest2 (by simpa using hlen)

/-! ## The claims -/

/-- C2: the known-vector regression.  Seed `1` drawn four times with
`(1, 10)` reproduces the documented reference sequence `[5, 7, 1, 4]` from
the comment atop `src/utils/random.ts`. -/
theorem seededRandom_knownVector :
    runSeq (seededRandom 1) [(1, 10), (1, 10), (1, 10), (1, 10)]
      = [5, 7, 1, 4] := by
  decide

/-- C3: determinism.  Two independently constructed generators with the same
seed, each fed the same request sequence in the same order, produce identical
output sequences: the draw is a pure function of the threaded state and the
request, with no other input. -/
theorem seededRandom_deterministic (s1 s2 : Int) (h : s1 = s2)
    (C : List (Int × Int)) :
    runSeq (seededRandom s1) C = runSeq (seededRandom s2) C := by
  rw [h]

/-- Witness for C3 at seed `7` and the request sequence `[(1,10), (0,5)]`. -/
theorem seededRandom_deterministic_witness :
    runSeq (seededRandom 7) [(1, 10), (0, 5)]
      = runSeq (seededRandom 7) [(1, 10), (0, 5)] :=
  seededRandom_deterministic 7 7 rfl [(1, 10), (0, 5)]

/-- C4: on each draw the state is updated first, via
`state = (state * 1664525 + 1013904223) % 2147483648` (truncating `%`), and
the returned value is computed from the already-updated state as
`floor((state / 2147483648) * (max - min)) + min`; the first draw therefore
reflects one transformation of the seed and the raw seed is never the basis
of the returned value. -/
theorem seededRandom_state_updated_first (s mn mx : Int) :
    ((seededRandom s).draw mn mx).1.state
        = (s * 1664525 + 1013904223).tmod 2147483648 ∧
      ((seededRandom s).draw mn mx).2
        = ((s * 1664525 + 1013904223).tmod 2147483648 * (mx - mn)).fdiv
            2147483648 + mn :=
  ⟨rfl, rfl⟩

/-- C5, counterexample: the source raises nothing.  Where the spec-worded
checked draw (`drawCheckedSpec`) fails with `InvalidRangeError` on the
degenerate range `min = max = 5`, the source's draw silently returns the
value `5`. -/
theorem seededRandom_invalidRange_counterexample :
    drawCheckedSpec (seededRandom 1) 5 5
        = Except.error "InvalidRangeError" ∧
      ((seededRandom 1).draw 5 5).2 = 5 :=
  ⟨rfl, by decide⟩

/-- C5, amended: the code defines no `InvalidRangeError` and never raises; a
draw call with `min == max` silently returns exactly `min` (an
out-of-contract value, since `[min, min)` is empty). -/
theorem seededRandom_degenerate_returns_min (s mn mx : Int) (h : mx = mn) :
    ((Generator.mk s).draw mn mx).2 = mn := by
  subst h
  show (lcgStep s * (mx - mx)).fdiv 2147483648 + mx = mx
  rw [sub_self, mul_zero, Int.zero_fdiv, zero_add]

/-- Witness for C5 at state `1` and the degenerate range `(5, 5)`. -/
theorem seededRandom_degenerate_returns_min_witness :
    (5 : Int) = 5 ∧ ((Generator.mk 1).draw 5 5).2 = 5 :=
  ⟨rfl, seededRandom_degenerate_returns_min 1 5 5 rfl⟩

/-- C6, counterexample: the update is not exact for every representable
seed.  JavaScript computes on IEEE-754 doubles, and at seed
`2^53 - 1 = 9007199254740991` the product `seed * 1664525 ≈ 1.5 * 10^22`
exceeds 53 bits and is rounded, so the double computation (`jsLcgStep`,
giving `1010827264`) differs from the mathematically exact LCG step
(`lcgStep`, giving `1012239698`). -/
theorem jsLcgStep_precision_counterexample :
    jsLcgStep 9007199254740991 ≠ lcgStep 9007199254740991 := by
  decide

/-- C6, amended: the double-precision update is exact whenever
`|state| ≤ 5000000000` (then `|state * 1664525 + 1013904223| < 2^53`, so no
rounding occurs before the modulo); in particular every state reachable
after the first update satisfies `|state| < 2^31 < 5000000000`, so from the
second draw on the computed state sequence always equals the mathematically
exact LCG sequence, and it does so from the first draw when the seed itself
lies within this bound. -/
theorem jsLcgStep_exact (s : Int) (h : s.natAbs ≤ 5000000000) :
    jsLcgStep s = lcgStep s := by
  have h1 : (s * 1664525).natAbs ≤ 8322625000000000 := by
    rw [Int.natAbs_mul]
    calc s.natAbs * (1664525 : Int).natAbs
        ≤ 5000000000 * (1664525 : Int).natAbs :=
          Nat.mul_le_mul_right _ h
      _ = 8322625000000000 := by norm_num
  have h2 : (s * 1664525 + 1013904223).natAbs < 2 ^ 53 := by omega
  show (rnd53 (rnd53 (s * 1664525) + 1013904223)).tmod 2147483648 = lcgStep s
  rw [rnd53_eq_self (show (s * 1664525).natAbs < 2 ^ 53 by omega),
    rnd53_eq_self h2]
  rfl

/-- Witness for C6 at state `123`. -/
theorem jsLcgStep_exact_witness :
    (123 : Int).natAbs ≤ 5000000000 ∧ jsLcgStep 123 = lcgStep 123 :=
  ⟨by decide, jsLcgStep_exact 123 (by decide)⟩

/-- C7: at the widest range `min = 0`, `max = 2147483648` (the modulus
itself) the scaling is exact — the value returned is the state itself — and
the upper bound stays exclusive: the returned value never equals `max`,
because the remainder is strictly below the modulus.  (The double
computation is exact here too: `state / 2^31` and its product with `2^31`
are both exactly representable.) -/
theorem seededRandom_modulus_range_exclusive (s : Int) :
    ((Generator.mk s).draw 0 2147483648).2 ≠ 2147483648 := by
  have hv : ((Generator.mk s).draw 0 2147483648).2 = lcgStep s := by
    show (lcgStep s * (2147483648 - 0)).fdiv 2147483648 + 0 = lcgStep s
    rw [sub_zero, Int.mul_fdiv_cancel _ (by norm_num), add_zero]
  rw [hv]
  exact ne_of_lt (lcgStep_lt s)

/-- C8: frame property across instances.  Drawing on one generator instance
leaves every other instance's state untouched — in a world of two coexisting
instances (constructed from any seeds, equal or not), a draw on the first
returns the second unchanged, and its only effect is replacing the calling
instance's own state. -/
theorem seededRandom_instance_independence (a b : Generator) (mn mx : Int) :
    ((drawFst (a, b) mn mx).1).2 = b ∧
      ((drawFst (a, b) mn mx).1).1 = (a.draw mn mx).1 :=
  ⟨rfl, rfl⟩

/-- C9: a draw with `max == min` returns exactly `min` without any error,
and the internal state is still advanced by one LCG step — the degenerate
range does not skip the state update. -/
theorem seededRandom_degenerate_advances_state (s mn : Int) :
    (Generator.mk s).draw mn mn = (⟨lcgStep s⟩, mn) := by
  show (⟨lcgStep s⟩, (lcgStep s * (mn - mn)).fdiv 2147483648 + mn)
      = ((⟨lcgStep s⟩ : Generator), mn)
  rw [sub_self, mul_zero, Int.zero_fdiv, zero_add]

/-- C10: the state after `n` draws depends only on the seed and `n`.  The
`(min, max)` arguments never enter the state update, so two generators with
the same seed, fed any two request sequences of equal length, end in equal
states. -/
theorem seededRandom_state_independent_of_bounds (s : Int)
    (C1 C2 : List (Int × Int)) (h : C1.length = C2.length) :
    runGen (seededRandom s) C1 = runGen (seededRandom s) C2 :=
  runGen_eq_of_length C1 (seededRandom s) C2 h

/-- Witness for C10 at seed `1` with sequences `[(1,10)]` and `[(0,100)]`. -/
theorem seededRandom_state_independent_of_bounds_witness :
    ([((1 : Int), (10 : Int))].length = [((0 : Int), (100 : Int))].length) ∧
      runGen (seededRandom 1) [(1, 10)] = runGen (seededRandom 1) [(0, 100)] :=
  ⟨by decide, seededRandom_state_independent_of_bounds 1
    [(1, 10)] [(0, 100)] (by decide)⟩
